import Mathlib

/-!
Verification of the finviz-mcp-server screening query compiler and response
normalizer (src/finviz_client/base.py, src/finviz_client/screener.py),
shallowly embedded in Lean.

Modelling conventions:
* Python numbers (int/float) are modelled as exact rationals `ℚ`; `str()` on a
  number is modelled as minimal-decimal rendering (Python float repr prints the
  shortest decimal, which on the exact decimal inputs used here coincides).
  The `int`-vs-`float` tag is not tracked: it only affects `str()` of integral
  floats at raw f-string interpolation sites none of the claims touch.
* A Python dict key that is present is modelled as `some v`; an absent key as
  `none`.  Keys present with value `None` are not modelled (no caller of the
  compiler produces them).
* `float(...)`/`int(...)` string parsing is modelled for sign/digits/point/
  exponent decimal literals; `inf`/`nan`/underscore forms are out of scope.
-/

namespace Finviz

/-- Python `int()` truncation toward zero of a rational. -/
def pyTrunc (q : ℚ) : Int :=
  if 0 ≤ q.num then ((q.num.toNat / q.den : Nat) : Int)
  else -((q.num.natAbs / q.den : Nat) : Int)

/-- Little-endian base-10 digits, with structural fuel (`fuel ≥ n` yields all digits). -/
def natDigitsLE : Nat → Nat → List Nat
  | 0, _ => []
  | fuel+1, n => if n = 0 then [] else n % 10 :: natDigitsLE fuel (n / 10)

/-- Little-endian base-10 digits of `n`. -/
def natDigitsOf (n : Nat) : List Nat := natDigitsLE n n

/-- The ASCII character of a decimal digit. -/
def digitChar10 (d : Nat) : Char := Char.ofNat (48 + d)

/-- Decimal string of a natural number (Python `str`). -/
def natStr (n : Nat) : String :=
  if n = 0 then "0" else String.mk (((natDigitsOf n).map digitChar10).reverse)

/-- Decimal string of an integer (Python `str`). -/
def intStr (i : Int) : String :=
  if i < 0 then "-" ++ natStr i.natAbs else natStr i.natAbs

/-- Search (with fuel) the least `k`, starting at `start`, with `d ∣ 10 ^ k`. -/
def decExpSearch (d : Nat) : Nat → Nat → Option Nat
  | 0, _ => none
  | fuel+1, start => if d ∣ 10 ^ start then some start else decExpSearch d fuel (start + 1)

/-- Python `str` of a float, modelled on exact decimal rationals: integral
    values print without a decimal point, otherwise the shortest decimal
    expansion is printed (no trailing zeros, matching Python float repr). -/
def pyFloatStr (q : ℚ) : String :=
  if q.den = 1 then intStr q.num
  else
    match decExpSearch q.den (q.den + 1) 0 with
    | none => intStr q.num ++ "/" ++ natStr q.den
    | some k =>
      let m : Nat := q.num.natAbs * 10 ^ k / q.den
      let fp := m % 10 ^ k
      let fracLE := natDigitsOf fp ++ List.replicate (k - (natDigitsOf fp).length) 0
      let stripped := fracLE.dropWhile (fun d => d == 0)
      (if q.num < 0 then "-" else "") ++ natStr (m / 10 ^ k) ++ "." ++
        String.mk ((stripped.map digitChar10).reverse)

/-- A Python scalar filter value: a number or a string. -/
inductive PyScalar where
  | qv (q : ℚ)
  | sv (s : String)
deriving DecidableEq, Repr

/-- Python `startswith` against a tuple of single-character prefixes. -/
def startsWithAny (s : String) (cs : List Char) : Bool :=
  match s.data with
  | [] => false
  | c :: _ => cs.contains c

/-- Python `str.isdigit` (ASCII scope). -/
def pyIsDigit (s : String) : Bool :=
  !s.data.isEmpty && s.data.all (fun c => c.isDigit)

/-- Whether `pat` occurs as a contiguous substring of `l` (Python `in`). -/
def listContainsSub (pat l : List Char) : Bool :=
  l.tails.any (fun t => pat.isPrefixOf t)

/-- Python `pat in s` on strings. -/
def strContainsSub (pat s : String) : Bool := listContainsSub pat.data s.data

/-- Python `rstrip(",")`: drop all trailing commas. -/
def rstripCommas (s : String) : String :=
  String.mk ((s.data.reverse.dropWhile (fun c => c == ',')).reverse)

/-- Value of a (all-digit, nonempty) character run. -/
def digitsVal (cs : List Char) : Nat :=
  cs.foldl (fun a c => a * 10 + (c.toNat - 48)) 0

/-- Parse a nonempty all-digit run. -/
def parseDigits (cs : List Char) : Option Nat :=
  if cs.isEmpty || !cs.all (fun c => c.isDigit) then none else some (digitsVal cs)

/-- Python `int(str)` on decimal literals. -/
def pyParseInt (s : String) : Option Int :=
  match s.data with
  | '-' :: rest => (parseDigits rest).map (fun n => -(n : Int))
  | '+' :: rest => (parseDigits rest).map (fun n => (n : Int))
  | cs => (parseDigits cs).map (fun n => (n : Int))

/-- Parse `digits [. digits]` as an exact rational. -/
def parseMantissa (cs : List Char) : Option ℚ :=
  let ip := cs.takeWhile (fun c => c.isDigit)
  let rest := cs.dropWhile (fun c => c.isDigit)
  match rest with
  | [] => if ip.isEmpty then none else some ((digitsVal ip : Nat) : ℚ)
  | '.' :: rest2 =>
    let fp := rest2.takeWhile (fun c => c.isDigit)
    let rest3 := rest2.dropWhile (fun c => c.isDigit)
    if !rest3.isEmpty then none
    else if ip.isEmpty && fp.isEmpty then none
    else some ((digitsVal ip : ℚ) + (digitsVal fp : ℚ) / ((10 : ℚ) ^ fp.length))
  | _ => none

/-- Split a character list at the first `'e'`/`'E'`. -/
def splitExp (cs : List Char) : List Char × Option (List Char) :=
  match cs with
  | [] => ([], none)
  | c :: rest =>
    if c == 'e' || c == 'E' then ([], some rest)
    else
      let (m, e) := splitExp rest
      (c :: m, e)

/-- Parse an optionally signed digit run (exponent part). -/
def parseSignedDigits (cs : List Char) : Option Int :=
  match cs with
  | '-' :: rest => (parseDigits rest).map (fun n => -(n : Int))
  | '+' :: rest => (parseDigits rest).map (fun n => (n : Int))
  | _ => (parseDigits cs).map (fun n => (n : Int))

/-- Python `float(str)` on decimal literals (exact value). -/
def pyParseFloat (s : String) : Option ℚ :=
  let (sgn, body) :=
    match s.data with
    | '-' :: rest => ((-1 : ℚ), rest)
    | '+' :: rest => ((1 : ℚ), rest)
    | cs => ((1 : ℚ), cs)
  let (mant, expPart) := splitExp body
  match parseMantissa mant with
  | none => none
  | some m =>
    match expPart with
    | none => some (sgn * m)
    | some ecs =>
      match parseSignedDigits ecs with
      | none => none
      | some e => some (sgn * m * (10 : ℚ) ^ e)

/-- Render a number the way `str(int(v)) if v == int(v) else str(v)` does. -/
def numRender (q : ℚ) : String :=
  if q.den = 1 then intStr q.num else pyFloatStr q

/-- Embeds `FinvizClient._safe_price_conversion` (base.py:82-109). -/
def safe_price_conversion : PyScalar → String
  | .sv v =>
    if startsWithAny v ['o', 'u'] &&
        pyIsDigit (String.mk ((v.data.drop 1).filter (fun c => c ≠ '.'))) then v
    else
      match pyParseFloat v with
      | some q => numRender q
      | none => v
  | .qv q => numRender q

/-- The descending bucket ladder of `_convert_volume_to_finviz_format`
    (base.py:130-153), on a numeric input. -/
def volumeLadder (q : ℚ) : String :=
  let k := pyTrunc (q / 1000)
  if 2000 ≤ k then "o2000"
  else if 1000 ≤ k then "o1000"
  else if 750 ≤ k then "o750"
  else if 500 ≤ k then "o500"
  else if 400 ≤ k then "o400"
  else if 300 ≤ k then "o300"
  else if 200 ≤ k then "o200"
  else if 100 ≤ k then "o100"
  else if 50 ≤ k then "o50"
  else "o0"

/-- Embeds `FinvizClient._convert_volume_to_finviz_format` (base.py:111-166). -/
def convert_volume_to_finviz_format : PyScalar → String
  | .sv v =>
    if startsWithAny v ['o', 'u', 'e'] || v == "" || v == "frange" then v
    else if v.endsWith "to" || strContainsSub "to" v then v
    else
      match pyParseFloat v with
      | some q => volumeLadder q
      | none => "o100"
  | .qv q => volumeLadder q

/-- Embeds `FinvizClient._safe_numeric_conversion` (base.py:168-193). -/
def safe_numeric_conversion : PyScalar → String
  | .sv v =>
    if startsWithAny v ['o', 'u', 'e'] then String.mk (v.data.drop 1)
    else
      match pyParseFloat v with
      | some q => intStr (pyTrunc q)
      | none => v
  | .qv q => intStr (pyTrunc q)

/-- Embeds `FinvizClient._clean_numeric_value` (base.py:195-238).  Numbers are
    exact rationals (the int/float distinction of the Python return type is
    not tracked). -/
def clean_numeric_value (value : String) : Option ℚ :=
  if value == "" || value == "-" || value == "N/A" then none
  else if value.endsWith "%" then pyParseFloat (String.mk value.data.dropLast)
  else
    let v1 := if value.startsWith "$" then String.mk (value.data.drop 1) else value
    let v2 := String.mk (v1.data.filter (fun c => c ≠ ','))
    if v2.endsWith "B" then (pyParseFloat (String.mk v2.data.dropLast)).map (· * 1000000000)
    else if v2.endsWith "M" then (pyParseFloat (String.mk v2.data.dropLast)).map (· * 1000000)
    else if v2.endsWith "K" then (pyParseFloat (String.mk v2.data.dropLast)).map (· * 1000)
    else if v2.data.contains '.' then pyParseFloat v2
    else (pyParseInt v2).map (fun i => (i : ℚ))

/-- Modelled from the claim wording (spec §4.6 normalization order), for
    comparison with `clean_numeric_value`: currency strip → thousands
    separators → trailing percent → B/M/K suffix → sentinel → integer →
    float → trimmed-string fallback. -/
def clean_numeric_value_spec (value : String) : Option (ℚ ⊕ String) :=
  let v1 := if value.startsWith "$" then String.mk (value.data.drop 1) else value
  let v2 := String.mk (v1.data.filter (fun c => c ≠ ','))
  if v2.endsWith "%" then (pyParseFloat (String.mk v2.data.dropLast)).map Sum.inl
  else if v2.endsWith "B" then
    (pyParseFloat (String.mk v2.data.dropLast)).map (fun q => Sum.inl (q * 1000000000))
  else if v2.endsWith "M" then
    (pyParseFloat (String.mk v2.data.dropLast)).map (fun q => Sum.inl (q * 1000000))
  else if v2.endsWith "K" then
    (pyParseFloat (String.mk v2.data.dropLast)).map (fun q => Sum.inl (q * 1000))
  else if v2 == "" || v2 == "-" || v2 == "N/A" then none
  else
    match pyParseInt v2 with
    | some i => some (Sum.inl ((i : ℚ)))
    | none =>
      match pyParseFloat v2 with
      | some q => some (Sum.inl q)
      | none => some (Sum.inr v2.trim)

example : clean_numeric_value "$1,234.50" = some (2469 / 2) := by with_unfolding_all rfl
example : clean_numeric_value "12.3%" = some (123 / 10) := by with_unfolding_all rfl
example : clean_numeric_value "1.2B" = some 1200000000 := by with_unfolding_all rfl
example : clean_numeric_value "-" = none := by with_unfolding_all rfl
example : clean_numeric_value "N/A" = none := by with_unfolding_all rfl
example : clean_numeric_value "abc" = none := by with_unfolding_all rfl
example : clean_numeric_value_spec "abc" = some (Sum.inr "abc") := by with_unfolding_all rfl
example : safe_price_conversion (.qv (21 / 2)) = "10.5" := by with_unfolding_all rfl
example : safe_price_conversion (.qv (2011 / 100)) = "20.11" := by with_unfolding_all rfl
example : safe_price_conversion (.sv "o5") = "o5" := by with_unfolding_all rfl
example : safe_numeric_conversion (.sv "o10") = "10" := by with_unfolding_all rfl
example : convert_volume_to_finviz_format (.qv 49999) = "o0" := by with_unfolding_all rfl
example : convert_volume_to_finviz_format (.qv 2000000) = "o2000" := by with_unfolding_all rfl

/-! ### Lookup tables of the compiler (base.py) -/

/-- The earnings-date fixed-period vocabulary (base.py:846-876). -/
def earningsValuesTable : List (String × String) :=
  [("today", "today"), ("today_before", "todaybefore"), ("today_after", "todayafter"),
   ("tomorrow", "tomorrow"), ("tomorrow_before", "tomorrowbefore"),
   ("tomorrow_after", "tomorrowafter"), ("yesterday", "yesterday"),
   ("yesterday_before", "yesterdaybefore"), ("yesterday_after", "yesterdayafter"),
   ("next_5_days", "nextdays5"), ("this_week", "thisweek"), ("next_week", "nextweek"),
   ("prev_week", "prevweek"), ("this_month", "thismonth"), ("nextweek", "nextweek"),
   ("within_2_weeks", "nextdays5"), ("todaybefore", "todaybefore"),
   ("todayafter", "todayafter"), ("tomorrowbefore", "tomorrowbefore"),
   ("tomorrowafter", "tomorrowafter"), ("yesterdaybefore", "yesterdaybefore"),
   ("yesterdayafter", "yesterdayafter"), ("nextdays5", "nextdays5"),
   ("thisweek", "thisweek"), ("prevweek", "prevweek"), ("thismonth", "thismonth")]

/-- Lookup in the earnings-date vocabulary. -/
def earningsValues (k : String) : Option String := earningsValuesTable.lookup k

/-- The market-cap preset table (base.py:564-574, identical at 406-410 and 505-509). -/
def capMappingTable : List (String × String) :=
  [("mega", "mega"), ("large", "large"), ("mid", "mid"), ("small", "small"),
   ("micro", "micro"), ("nano", "nano"), ("smallover", "smallover"),
   ("midover", "midover"), ("microover", "microover")]

/-- Lookup in the market-cap preset table. -/
def capMapping (k : String) : Option String := capMappingTable.lookup k

/-- The sort-field mapping (base.py:343-353). -/
def sortMappingTable : List (String × String) :=
  [("eps_growth_yoy", "epsyoy1"), ("eps_growth_this_y", "epsthisy"),
   ("price_change", "change"), ("relative_volume", "relvol"), ("volume", "volume"),
   ("performance_1w", "perf1w"), ("market_cap", "marketcap"), ("ticker", "ticker"),
   ("eps_surprise", "epssurprise")]

/-- Lookup in the sort-field mapping. -/
def sortMapping (k : String) : Option String := sortMappingTable.lookup k

/-- Embeds `FinvizClient._get_sector_code` (base.py:959-982). -/
def get_sector_code (sector : String) : Option String :=
  ([("Basic Materials", "basicmaterials"), ("Communication Services", "communicationservices"),
    ("Consumer Cyclical", "consumercyclical"), ("Consumer Defensive", "consumerdefensive"),
    ("Energy", "energy"), ("Financial Services", "financial"), ("Healthcare", "healthcare"),
    ("Industrials", "industrials"), ("Real Estate", "realestate"),
    ("Technology", "technology"), ("Utilities", "utilities")] :
    List (String × String)).lookup sector

/-! ### Date formatting (base.py:984-1025) -/

/-- Gregorian month length, as `datetime.strptime` validates it. -/
def daysInMonth (y m : Nat) : Nat :=
  if m = 2 then (if (y % 4 = 0 && y % 100 ≠ 0) || y % 400 = 0 then 29 else 28)
  else if m = 4 || m = 6 || m = 9 || m = 11 then 30 else 31

/-- Calendar validity check performed by `datetime.strptime`. -/
def validDate (y m d : Nat) : Bool :=
  1 ≤ m && m ≤ 12 && 1 ≤ d && d ≤ daysInMonth y m

/-- A run of decimal digits of exact length `n`. -/
def digitsOfLen (s : String) (n : Nat) : Bool :=
  s.data.length == n && s.data.all (fun c => c.isDigit)

/-- A run of decimal digits of length between `lo` and `hi`. -/
def digitsOfLenBetween (s : String) (lo hi : Nat) : Bool :=
  lo ≤ s.data.length && s.data.length ≤ hi && s.data.all (fun c => c.isDigit)

/-- Zero-pad a number to two digits (strftime `%m`/`%d`). -/
def fmtTwo (n : Nat) : String := if n < 10 then "0" ++ natStr n else natStr n

/-- Zero-pad a number to four digits (strftime `%Y`). -/
def fmtFour (n : Nat) : String :=
  if n < 10 then "000" ++ natStr n
  else if n < 100 then "00" ++ natStr n
  else if n < 1000 then "0" ++ natStr n
  else natStr n

/-- `datetime.strptime` on a three-field date pattern: `ord` gives the field
    order (0 = year/month/day, 1 = day/month/year, 2 = month/day/year),
    `sep` the separator.  Lenient digit widths as in strptime (`%Y` 1-4
    digits, `%m`/`%d` 1-2 digits), with calendar validation. -/
def tryStrptime (ord : Nat) (sep : String) (s : String) : Option (Nat × Nat × Nat) :=
  match s.splitOn sep with
  | [a, b, c] =>
    let pick := fun (ys ms ds : String) =>
      if digitsOfLenBetween ys 1 4 && digitsOfLenBetween ms 1 2 && digitsOfLenBetween ds 1 2 then
        let y := digitsVal ys.data
        let m := digitsVal ms.data
        let d := digitsVal ds.data
        if validDate y m d then some (y, m, d) else none
      else none
    if ord = 0 then pick a b c
    else if ord = 1 then pick c b a
    else pick c a b
  | _ => none

/-- Embeds `FinvizClient._format_date_for_finviz` (base.py:984-1025): normalize
    a date string to the MM-DD-YYYY form, or `none` on failure. -/
def format_date_for_finviz (date_str : String) : Option String :=
  let asMDY := fun (t : Nat × Nat × Nat) => fmtTwo t.2.1 ++ "-" ++ fmtTwo t.2.2 ++ "-" ++ fmtFour t.1
  -- already MM-DD-YYYY
  if (match date_str.splitOn "-" with
      | [a, b, c] => digitsOfLen a 2 && digitsOfLen b 2 && digitsOfLen c 4
      | _ => false) then some date_str
  -- ISO YYYY-MM-DD
  else if (match date_str.splitOn "-" with
      | [a, b, c] => digitsOfLen a 4 && digitsOfLen b 2 && digitsOfLen c 2
      | _ => false) then
    (tryStrptime 0 "-" date_str).map asMDY
  -- MM/DD/YYYY
  else if (match date_str.splitOn "/" with
      | [a, b, c] => digitsOfLenBetween a 1 2 && digitsOfLenBetween b 1 2 && digitsOfLen c 4
      | _ => false) then
    (tryStrptime 2 "/" date_str).map asMDY
  -- fallback formats %Y/%m/%d, %d-%m-%Y, %d/%m/%Y, tried in order
  else
    match tryStrptime 0 "/" date_str with
    | some t => some (asMDY t)
    | none =>
      match tryStrptime 1 "-" date_str with
      | some t => some (asMDY t)
      | none =>
        match tryStrptime 1 "/" date_str with
        | some t => some (asMDY t)
        | none => none

/-! ### The FilterSpec data model and the query compiler -/

/-- The `earnings_date` filter value: a keyword (or pre-joined range) string, a
    keyword list, or a `{start, end}` date-range dict. -/
inductive EarningsDate where
  | str (s : String)
  | list (l : List String)
  | range (startDate endDate : String)
deriving DecidableEq, Repr

/-- Python truthiness of an `earnings_date` value. -/
def edTruthy : EarningsDate → Bool
  | .str s => s ≠ ""
  | .list l => !l.isEmpty
  | .range _ _ => true

/-- Python truthiness of a scalar. -/
def scalarTruthy : PyScalar → Bool
  | .qv q => q ≠ 0
  | .sv s => s ≠ ""

/-- Python truthiness of an optional boolean dict entry. -/
def truthyBool (o : Option Bool) : Bool := o.getD false

/-- Python `str()` of a scalar at a raw f-string interpolation site. -/
def pyStr : PyScalar → String
  | .qv q => pyFloatStr q
  | .sv s => s

/-- The FilterSpec: the set of dict keys `_convert_filters_to_finviz` reads.
    `none` models an absent key. -/
structure FilterSpec where
  sort_by : Option String := none
  sort_order : Option String := none
  market_cap : Option String := none
  market_cap_min : Option PyScalar := none
  market_cap_max : Option PyScalar := none
  price_min : Option PyScalar := none
  price_max : Option PyScalar := none
  volume_min : Option PyScalar := none
  volume_max : Option PyScalar := none
  avg_volume_min : Option PyScalar := none
  avg_volume_max : Option PyScalar := none
  relative_volume_min : Option PyScalar := none
  relative_volume_max : Option PyScalar := none
  price_change_min : Option PyScalar := none
  price_change_max : Option PyScalar := none
  rsi_min : Option PyScalar := none
  rsi_max : Option PyScalar := none
  pe_min : Option PyScalar := none
  pe_max : Option PyScalar := none
  dividend_yield_min : Option PyScalar := none
  dividend_yield_max : Option PyScalar := none
  near_52w_high : Option PyScalar := none
  volatility_min : Option PyScalar := none
  afterhours_change_min : Option PyScalar := none
  eps_growth_qoq_min : Option PyScalar := none
  eps_revision_min : Option PyScalar := none
  sales_growth_qoq_min : Option PyScalar := none
  performance_4w_positive : Option Bool := none
  sma20_above : Option Bool := none
  sma50_above : Option Bool := none
  sma200_above : Option Bool := none
  sma50_above_sma200 : Option Bool := none
  stocks_only : Option Bool := none
  earnings_recent : Option Bool := none
  earnings_revision_positive : Option Bool := none
  price_change_positive : Option Bool := none
  exclude_etfs : Option Bool := none
  sectors : Option (List String) := none
  earnings_date : Option EarningsDate := none
  performance_4w_range : Option String := none
  weekly_performance : Option String := none
  screener_type : Option String := none
  subtheme : Option String := none
  max_results : Option Nat := none
deriving DecidableEq, Repr

/-- The `v=151` column list constant (base.py:334). -/
def colList151 : String :=
  "0,1,2,3,4,5,6,7,8,9,10,11,12,13,14,15,16,17,18,19,20,21,22,23,24,25,26,27,28,29,30,31,32,33,34,35,36,37,38,39,40,41,42,43,44,45,46,47,48,49,50,51,52,53,54,55,56,57,58,59,60,61,62,63,64,65,66,67,68,69,70,71,72,73,74,75,76,77,78,79,80,81,82,83,84,85,86,87,88,89,90,91,92,93,94,95,96,97,98,99,100,101,102,103,104,105,106,107,108,109,110,111,112,113,114,115,116,117,118,119,120,121,122,123,124,125,126,127,128"

/-- The QueryParameters map produced by the compiler (keys `v`, `o`, `c`
    always present; `f`, `ft`, `ar` optional). -/
structure QueryParams where
  v : String := "151"
  o : String := "-ticker"
  c : String := colList151
  f : Option String := none
  ft : Option String := none
  ar : Option String := none
deriving DecidableEq, Repr

/-- `params["f"] = params.get("f", "") + tok`. -/
def appendF (p : QueryParams) (tok : String) : QueryParams :=
  { p with f := some ((p.f.getD "") ++ tok) }

/-- The volume-surge recipe trigger (base.py:363). -/
def isVolumeSurgeTrigger (fs : FilterSpec) : Bool :=
  fs.market_cap == some "smallover" && fs.relative_volume_min.isSome &&
  fs.stocks_only == some true && fs.price_change_min == some (.qv 2)

/-- The earnings-afterhours recipe trigger (base.py:392). -/
def isEarningsAfterhoursTrigger (fs : FilterSpec) : Bool :=
  (match fs.earnings_date with
   | some (.str s) => s == "today_after" || s == "thisweek"
   | _ => false) &&
  (fs.afterhours_change_min.isSome || fs.price_change_min.isSome)

/-- The uptrend recipe trigger (base.py:499). -/
def isUptrendTrigger (fs : FilterSpec) : Bool :=
  fs.market_cap == some "microover" && fs.near_52w_high.isSome


/-- The five-way min/max range-token block that base.py repeats verbatim for
    price (594-617), volume (619-642), average volume (643-667), relative
    volume (668-691), price change (693-716), RSI (727-750), P/E (764-787)
    and dividend yield (789-812): preset pass-through on either bound, else
    range, else a dimension-specific single-bound form. -/
def rangeFilter (p : QueryParams) (pre : String) (minv maxv : Option String)
    (minForm maxForm : String → String) : QueryParams :=
  if (match minv with
      | some s => s ≠ "" && startsWithAny s ['o', 'u']
      | none => false) then
    appendF p (pre ++ minv.getD "" ++ ",")
  else if (match maxv with
      | some s => s ≠ "" && startsWithAny s ['o', 'u']
      | none => false) then
    appendF p (pre ++ maxv.getD "" ++ ",")
  else
    match minv, maxv with
    | some a, some b =>
      if a ≠ "" && b ≠ "" then appendF p (pre ++ a ++ "to" ++ b ++ ",")
      else if a ≠ "" then appendF p (pre ++ minForm a ++ ",")
      else if b ≠ "" then appendF p (pre ++ maxForm b ++ ",")
      else p
    | some a, none => if a ≠ "" then appendF p (pre ++ minForm a ++ ",") else p
    | none, some b => if b ≠ "" then appendF p (pre ++ maxForm b ++ ",") else p
    | none, none => p

/-- Sort handling of the compiler (base.py:338-360). -/
def sortStep (fs : FilterSpec) (p : QueryParams) : QueryParams :=
  match fs.sort_by with
  | none => p
  | some sf =>
    match sortMapping sf with
    | none => p
    | some fv =>
      if fs.sort_order.getD "desc" == "desc" then { p with o := "-" ++ fv }
      else { p with o := fv }

/-- The market-cap preset lookup shared by branches (base.py:405-412, 504-511). -/
def capParts (mc : Option String) : List String :=
  match mc with
  | some v =>
    if v ≠ "" then
      match capMapping v with
      | some c => ["cap_" ++ c]
      | none => []
    else []
  | none => []

/-- The earnings_afterhours fixed-order recipe branch (base.py:391-444). -/
def earningsAfterhoursStep (fs : FilterSpec) (p : QueryParams) : QueryParams :=
  let parts : List String :=
    (match fs.afterhours_change_min with
     | some v => ["ah_change_u" ++ safe_numeric_conversion v]
     | none =>
       match fs.price_change_min with
       | some v => ["ta_change_u" ++ safe_numeric_conversion v]
       | none => []) ++
    capParts fs.market_cap ++
    (match fs.earnings_date with
     | some (.str s) =>
       if s == "today_after" then ["earningsdate_todayafter"]
       else if s == "thisweek" then ["earningsdate_thisweek"]
       else []
     | _ => []) ++
    (match fs.avg_volume_min with
     | some v => ["sh_avgvol_" ++ convert_volume_to_finviz_format v]
     | none => []) ++
    (match fs.price_min with
     | some v => ["sh_price_o" ++ safe_price_conversion v]
     | none => [])
  let p := { p with f := some (String.intercalate "," parts) }
  let p := if truthyBool fs.stocks_only then { p with ft := some "4" } else p
  let p := if fs.sort_by == some "afterhours_change" then { p with o := "-afterchange" } else p
  match fs.max_results with
  | some n => if n ≠ 0 then { p with ar := some (natStr n) } else p
  | none => p

/-- The earnings_trading fixed-order recipe branch (base.py:446-496). -/
def earningsTradingStep (fs : FilterSpec) (p : QueryParams) : QueryParams :=
  let parts : List String :=
    (if fs.market_cap == some "smallover" then ["cap_smallover"] else []) ++
    (if truthyBool fs.earnings_recent then ["earningsdate_yesterdayafter|todaybefore"] else []) ++
    (if truthyBool fs.earnings_revision_positive then ["fa_epsrev_ep"] else []) ++
    (if fs.avg_volume_min == some (.qv 200000) then ["sh_avgvol_o200"] else []) ++
    (if fs.price_min == some (.qv 10) then ["sh_price_o10"] else []) ++
    (if truthyBool fs.price_change_positive then ["ta_change_u"] else []) ++
    (if fs.performance_4w_range == some "0_to_negative_4w" then ["ta_perf_0to-4w"] else []) ++
    (if fs.volatility_min == some (.qv 1) then ["ta_volatility_1tox"] else [])
  let p := { p with f := some (String.intercalate "," parts) }
  let p := if truthyBool fs.stocks_only then { p with ft := some "4" } else p
  let p := if fs.sort_by == some "eps_surprise" then { p with o := "-epssurprise" } else p
  match fs.max_results with
  | some n => if n ≠ 0 then { p with ar := some (natStr n) } else p
  | none => p

/-- The uptrend fixed-order recipe branch (base.py:498-554). -/
def uptrendStep (fs : FilterSpec) (p : QueryParams) : QueryParams :=
  let parts : List String :=
    capParts fs.market_cap ++
    (match fs.avg_volume_min with
     | some v =>
       let nv := safe_numeric_conversion v
       if startsWithAny nv ['o', 'u'] then ["sh_avgvol_" ++ nv]
       else ["sh_avgvol_" ++ nv ++ "to"]
     | none => []) ++
    (match fs.price_min with
     | some v =>
       let nv := safe_price_conversion v
       if startsWithAny nv ['o', 'u'] then ["sh_price_" ++ nv]
       else ["sh_price_" ++ nv ++ "to"]
     | none => []) ++
    (match fs.near_52w_high with
     | some v => ["ta_highlow52w_a" ++ safe_numeric_conversion v ++ "h"]
     | none => []) ++
    (if truthyBool fs.performance_4w_positive then ["ta_perf2_4wup"] else []) ++
    (if truthyBool fs.sma20_above then ["ta_sma20_pa"] else []) ++
    (if truthyBool fs.sma200_above then ["ta_sma200_pa"] else []) ++
    (if truthyBool fs.sma50_above_sma200 then ["ta_sma50_sa200"] else [])
  if !parts.isEmpty then appendF p (String.intercalate "," parts ++ ",") else p

/-- The legacy generic-accumulation branch (base.py:556-725). -/
def legacyStep (fs : FilterSpec) (p : QueryParams) : QueryParams :=
  -- market cap preset / literal range (base.py:560-580)
  let p :=
    match fs.market_cap with
    | some mc =>
      if mc ≠ "" then
        match capMapping mc with
        | some c => appendF p ("cap_" ++ c ++ ",")
        | none => appendF p ("cap_" ++ mc ++ ",")
      else p
    | none => p
  -- market cap numeric range (base.py:582-592)
  let p :=
    if fs.market_cap_min.isSome || fs.market_cap_max.isSome then
      match fs.market_cap_min, fs.market_cap_max with
      | some a, some b =>
        if scalarTruthy a && scalarTruthy b then
          appendF p ("cap_" ++ pyStr a ++ "to" ++ pyStr b ++ ",")
        else if scalarTruthy a then appendF p ("cap_" ++ pyStr a ++ "to,")
        else p
      | some a, none => if scalarTruthy a then appendF p ("cap_" ++ pyStr a ++ "to,") else p
      | _, _ => p
    else p
  -- price, volume, average volume, relative volume, price change (base.py:594-716)
  let p := rangeFilter p "sh_price_" (fs.price_min.map safe_price_conversion)
    (fs.price_max.map safe_price_conversion) (fun a => "o" ++ a) (fun b => "u" ++ b)
  let p := rangeFilter p "sh_volume_" (fs.volume_min.map safe_numeric_conversion)
    (fs.volume_max.map safe_numeric_conversion) (fun a => a ++ "to") (fun b => "to" ++ b)
  let p := rangeFilter p "sh_avgvol_" (fs.avg_volume_min.map convert_volume_to_finviz_format)
    (fs.avg_volume_max.map convert_volume_to_finviz_format) (fun a => a ++ "to") (fun b => "to" ++ b)
  let p := rangeFilter p "sh_relvol_" (fs.relative_volume_min.map safe_numeric_conversion)
    (fs.relative_volume_max.map safe_numeric_conversion) (fun a => a ++ "to") (fun b => "to" ++ b)
  let p := rangeFilter p "ta_change_" (fs.price_change_min.map safe_numeric_conversion)
    (fs.price_change_max.map safe_numeric_conversion) (fun a => a ++ "to") (fun b => "to" ++ b)
  -- 52-week-high proximity (base.py:718-721)
  let p :=
    match fs.near_52w_high with
    | some v => appendF p ("ta_highlow52w_a" ++ safe_numeric_conversion v ++ "h,")
    | none => p
  -- 4-week performance flag (base.py:723-725)
  if truthyBool fs.performance_4w_positive then appendF p "ta_perf2_4wup," else p

/-- The earnings-date block of the common tail (base.py:824-890). -/
def earningsDateStep (fs : FilterSpec) (p : QueryParams) : QueryParams :=
  match fs.earnings_date with
  | some ed =>
    if edTruthy ed then
      match ed with
      | .range s e =>
        match format_date_for_finviz s, format_date_for_finviz e with
        | some f1, some f2 => appendF p ("earningsdate_" ++ f1 ++ "x" ++ f2 ++ ",")
        | _, _ => p
      | .str s =>
        if strContainsSub "x" s then appendF p ("earningsdate_" ++ s ++ ",")
        else
          match earningsValues s with
          | some v => appendF p ("earningsdate_" ++ v ++ ",")
          | none => p
      | .list l =>
        match l.filterMap earningsValues with
        | [] => p
        | v0 :: rest =>
          let tok :=
            if !rest.isEmpty then "earningsdate_" ++ v0 ++ "|" ++ String.intercalate "|" rest
            else "earningsdate_" ++ v0
          appendF p (tok ++ ",")
    else p
  | none => p

/-- The common tail applied on every branch (base.py:727-955), up to but not
    including the final comma strip. -/
def commonTailStep (fs : FilterSpec) (p : QueryParams) : QueryParams :=
  -- RSI (base.py:727-750)
  let p :=
    if fs.rsi_min.isSome || fs.rsi_max.isSome then
      rangeFilter p "ta_rsi_" (fs.rsi_min.map safe_numeric_conversion)
        (fs.rsi_max.map safe_numeric_conversion) (fun a => a ++ "to") (fun b => "to" ++ b)
    else p
  -- moving averages, skipped for the two special screeners (base.py:752-762)
  let p :=
    if !(isUptrendTrigger fs || isVolumeSurgeTrigger fs) then
      let p := if truthyBool fs.sma20_above then appendF p "ta_sma20_pa," else p
      let p := if truthyBool fs.sma50_above then appendF p "ta_sma50_pa," else p
      let p := if truthyBool fs.sma200_above then appendF p "ta_sma200_pa," else p
      if truthyBool fs.sma50_above_sma200 then appendF p "ta_sma50_sa200," else p
    else p
  -- P/E and dividend yield (base.py:764-812)
  let p :=
    if fs.pe_min.isSome || fs.pe_max.isSome then
      rangeFilter p "fa_pe_" (fs.pe_min.map safe_numeric_conversion)
        (fs.pe_max.map safe_numeric_conversion) (fun a => a ++ "to") (fun b => "to" ++ b)
    else p
  let p :=
    if fs.dividend_yield_min.isSome || fs.dividend_yield_max.isSome then
      rangeFilter p "fa_div_" (fs.dividend_yield_min.map safe_numeric_conversion)
        (fs.dividend_yield_max.map safe_numeric_conversion) (fun a => a ++ "to") (fun b => "to" ++ b)
    else p
  -- sectors (base.py:814-822)
  let p :=
    match fs.sectors with
    | some secs =>
      if !secs.isEmpty then
        match secs.filterMap get_sector_code with
        | [] => p
        | codes => appendF p ("sec_" ++ String.intercalate "|" codes ++ ",")
      else p
    | none => p
  -- earnings date (base.py:824-890)
  let p := earningsDateStep fs p
  -- EPS / sales growth thresholds (base.py:892-905)
  let p :=
    match fs.eps_growth_qoq_min with
    | some v => appendF p ("fa_epsqoq_o" ++ safe_numeric_conversion v ++ ",")
    | none => p
  let p :=
    match fs.eps_revision_min with
    | some v => appendF p ("fa_epsrev_eo" ++ safe_numeric_conversion v ++ ",")
    | none => p
  let p :=
    match fs.sales_growth_qoq_min with
    | some v => appendF p ("fa_salesqoq_o" ++ safe_numeric_conversion v ++ ",")
    | none => p
  -- boolean earnings/price-change flags (base.py:907-918)
  let p :=
    if truthyBool fs.earnings_recent then appendF p "earningsdate_yesterdayafter|todaybefore,"
    else p
  let p := if truthyBool fs.earnings_revision_positive then appendF p "fa_epsrev_ep," else p
  let p := if truthyBool fs.price_change_positive then appendF p "ta_change_u," else p
  -- minimum price change (base.py:920-923)
  let p :=
    match fs.price_change_min with
    | some v => appendF p ("ta_change_u" ++ safe_numeric_conversion v ++ ",")
    | none => p
  -- 4-week performance range (base.py:925-927)
  let p :=
    if fs.performance_4w_range == some "0_to_negative_4w" then appendF p "ta_perf_0to-4w,"
    else p
  -- volatility (base.py:929-932)
  let p :=
    match fs.volatility_min with
    | some v => appendF p ("ta_volatility_" ++ safe_numeric_conversion v ++ "tox,")
    | none => p
  -- weekly performance (base.py:934-936)
  let p :=
    match fs.weekly_performance with
    | some wp => if wp ≠ "" then appendF p ("ta_perf_" ++ wp ++ ",") else p
    | none => p
  -- after-hours change (base.py:938-941)
  let p :=
    match fs.afterhours_change_min with
    | some v => appendF p ("ah_change_u" ++ safe_numeric_conversion v ++ ",")
    | none => p
  -- ETF exclusion and subtheme (base.py:943-951)
  let p := if truthyBool fs.exclude_etfs then appendF p "geo_usa," else p
  match fs.subtheme with
  | some st => if st ≠ "" then appendF p ("subtheme_" ++ st.toLower ++ ",") else p
  | none => p

/-- Embeds `FinvizClient._convert_filters_to_finviz` (base.py:319-957): the
    screening query compiler, from a FilterSpec to Finviz URL parameters. -/
def convert_filters_to_finviz (fs : FilterSpec) : QueryParams :=
  let p : QueryParams := {}
  let p := sortStep fs p
  -- recipe / generic branch chain (base.py:362-725)
  let p :=
    if isVolumeSurgeTrigger fs then
      -- volume_surge fixed order (base.py:362-389)
      { p with f := some (String.intercalate ","
          ["cap_smallover", "ind_stocksonly", "sh_avgvol_o100", "sh_price_o10",
           "sh_relvol_o1.5", "ta_change_u2", "ta_sma200_pa"]) }
    else if isEarningsAfterhoursTrigger fs then earningsAfterhoursStep fs p
    else if fs.screener_type == some "earnings_trading" then earningsTradingStep fs p
    else if isUptrendTrigger fs then uptrendStep fs p
    else legacyStep fs p
  -- common tail (base.py:727-951)
  let p := commonTailStep fs p
  -- strip trailing commas from the filter string (base.py:953-955)
  match p.f with
  | some s => { p with f := some (rstripCommas s) }
  | none => p


/-! ### Transport and screening pipeline (base.py:274-317, 1029-1099) -/

/-- A Python exception relevant to the fetch pipeline. -/
inductive PyErr where
  | valueError (msg : String)
  | requestError (msg : String)
deriving DecidableEq, Repr

/-- A parsed CSV payload: header row and data rows (comma-split). -/
structure DataFrame where
  header : List String := []
  rows : List (List String) := []
deriving DecidableEq, Repr

/-- pandas `DataFrame.empty` on the export payload. -/
def DataFrame.isEmpty (df : DataFrame) : Bool := df.rows.isEmpty

/-- pandas `read_csv` on the export payload, modelled as newline/comma
    splitting (cell quoting is not modelled; no claim depends on it). -/
def parseCsv (s : String) : DataFrame :=
  match (s.splitOn "\n").filter (fun l => l ≠ "") with
  | [] => {}
  | h :: rest => { header := h.splitOn ",", rows := rest.map (fun l => l.splitOn ",") }

/-- The full request parameter set sent by `_fetch_csv_data`. -/
structure RequestParams where
  base : QueryParams
  auth : Option String := none
deriving DecidableEq, Repr

/-- Python truthiness of an optional string (`if self.api_key:`). -/
def truthyStr (o : Option String) : Bool :=
  match o with
  | some s => s ≠ ""
  | none => false

/-- `api_key or os.getenv("FINVIZ_API_KEY")` in `FinvizClient.__init__`
    (base.py:34). -/
def resolve_api_key (arg envKey : Option String) : Option String :=
  if truthyStr arg then arg else envKey

/-- The body of `_fetch_csv_data` inside its `try` (base.py:1039-1095):
    compile the filters, add format/result-cap parameters, resolve the auth
    token — raising `ValueError` when neither the client key nor the
    environment provides one — then issue the request (abstracted by `net`)
    and classify/parse the response. -/
def fetch_csv_data_body (apiKey envKey : Option String) (fs : FilterSpec)
    (net : RequestParams → Except PyErr String) : Except PyErr DataFrame := do
  let fparams := convert_filters_to_finviz fs
  let fparams := { fparams with ft := some "4" }
  let fparams :=
    match fs.max_results with
    | some n => { fparams with ar := some (natStr (min n 1000)) }
    | none => fparams
  let req : RequestParams ←
    if truthyStr apiKey then pure { base := fparams, auth := apiKey }
    else
      match envKey with
      | some k =>
        if k ≠ "" then pure { base := fparams, auth := some k }
        else throw (.valueError "Finviz API key is required")
      | none => throw (.valueError "Finviz API key is required")
  let body ← net req
  if body.startsWith "<!DOCTYPE html>" then pure {}
  else
    let df := parseCsv body
    match fs.max_results with
    | some n => pure { df with rows := df.rows.take (min n 1000) }
    | none => pure df

/-- `_fetch_csv_data` (base.py:1029-1099): the function-wide `try/except`
    converts any raised error — including the missing-key `ValueError` —
    into an empty DataFrame. -/
def fetch_csv_data (apiKey envKey : Option String) (fs : FilterSpec)
    (net : RequestParams → Except PyErr String) : DataFrame :=
  match fetch_csv_data_body apiKey envKey fs net with
  | .ok df => df
  | .error _ => {}

/-- `screen_stocks` (base.py:274-317): empty data yields `[]`; otherwise one
    record per CSV row.  The per-row `_parse_stock_data_from_csv` conversion
    is abstracted as the row itself, since no claim depends on its internals;
    the outer `except` also returns `[]`. -/
def screen_stocks (apiKey envKey : Option String) (fs : FilterSpec)
    (net : RequestParams → Except PyErr String) : List (List String) :=
  let df := fetch_csv_data apiKey envKey fs net
  if df.isEmpty then [] else df.rows

/-! ### Bulk fundamentals orchestrator (base.py:1553-1743) -/

/-- A normalized record value: number, string, or null. -/
inductive FieldVal where
  | num (q : ℚ)
  | str (s : String)
  | null
deriving DecidableEq, Repr

/-- Python truthiness of a record value (`if result["ticker"]:`). -/
def fieldTruthy : FieldVal → Bool
  | .num q => q ≠ 0
  | .str s => s ≠ ""
  | .null => false

/-- A Python dict, as an insertion-ordered association list. -/
abbrev PyDict := List (String × FieldVal)

/-- Python dict assignment: update an existing key in place, else append. -/
def dictSet : PyDict → String → FieldVal → PyDict
  | [], k, v => [(k, v)]
  | (k0, v0) :: rest, k, v =>
    if k0 = k then (k0, v) :: rest else (k0, v0) :: dictSet rest k v

/-- Column-label normalization (base.py:1622, 1636, 1669):
    `lower().replace(" ", "_").replace("/", "_").replace("(", "").replace(")", "")
    .replace(".", "").replace("-", "_").replace("%", "percent")`. -/
def normalizeFieldName (col : String) : String :=
  String.mk (col.toLower.data.flatMap (fun c =>
    if c = ' ' then ['_']
    else if c = '/' then ['_']
    else if c = '(' then []
    else if c = ')' then []
    else if c = '.' then []
    else if c = '-' then ['_']
    else if c = '%' then "percent".data
    else [c]))

/-- The numeric-column keyword list (base.py:1625). -/
def numericKeywords : List String :=
  ["price", "volume", "ratio", "margin", "growth", "return", "debt", "shares",
   "cash", "income", "sales", "eps", "dividend", "beta", "avg", "high", "low",
   "change", "float", "cap", "pe", "pb", "ps"]

/-- `is_numeric` check (base.py:1627). -/
def isNumericField (fieldName colLower : String) : Bool :=
  numericKeywords.any (fun k => strContainsSub k fieldName || strContainsSub k colLower)

/-- One bulk-CSV row: column label to cell (`none` models a pandas NaN). -/
abbrev CsvRow := List (String × Option String)

/-- Build the per-row result dict (base.py:1612-1637). -/
def buildRowResult (row : CsvRow) : PyDict :=
  row.foldl (fun r cell =>
    match cell.snd with
    | some s =>
      if s ≠ "-" && s ≠ "" then
        let fieldName := normalizeFieldName cell.fst
        if isNumericField fieldName cell.fst.toLower then
          match clean_numeric_value s with
          | some q => dictSet r fieldName (.num q)
          | none => dictSet r fieldName (.str s)
        else dictSet r fieldName (.str s)
      else dictSet r (normalizeFieldName cell.fst) .null
    | none => dictSet r (normalizeFieldName cell.fst) .null) []

/-- The field-alias table (base.py:1654-1661). -/
def fieldAliases : List (String × String) :=
  [("roi", "roic"), ("debt_equity", "debt_to_equity"),
   ("book_value", "book_value_per_share"), ("performance_week", "performance_1w"),
   ("performance_month", "performance_1m"), ("short_float", "float_short")]

/-- Requested-field projection with alias resolution and bounded substring
    fallback (base.py:1652-1687). -/
def filterFields (dfields : List String) (result : PyDict) : PyDict :=
  let init : PyDict := [("ticker", (result.lookup "ticker").getD .null)]
  dfields.foldl (fun fr field =>
    let actual := (fieldAliases.lookup field).getD field
    let normalized := normalizeFieldName actual
    match result.lookup normalized with
    | some v => dictSet fr field v
    | none =>
      match result.lookup actual with
      | some v => dictSet fr field v
      | none =>
        match result.find? (fun kv =>
            strContainsSub actual.toLower kv.fst.toLower ||
            strContainsSub kv.fst.toLower actual.toLower) with
        | some kv => dictSet fr field kv.snd
        | none => dictSet fr field .null) init

/-- Process one bulk-CSV row (base.py:1610-1690): `none` models the `continue`
    that skips a row with no ticker and no positional recovery. -/
def processRow (tickers : List String) (dfieldsOpt : Option (List String))
    (idx : Nat) (row : CsvRow) : Option PyDict :=
  let result := buildRowResult row
  let keep : Option PyDict :=
    if (match result.lookup "ticker" with
        | some tv => fieldTruthy tv
        | none => false) then some result
    else if idx < tickers.length then
      some (dictSet result "ticker" (.str (tickers.getD idx "")))
    else none
  match keep with
  | none => none
  | some r =>
    match dfieldsOpt with
    | some dfields => if !dfields.isEmpty then some (filterFields dfields r) else some r
    | none => some r

/-- The per-ticker placeholder appended for a failed individual fetch
    (base.py:1599-1604, 1720-1725). -/
def placeholderRec (t : String) (dfieldsOpt : Option (List String)) : PyDict :=
  let base : PyDict := [("ticker", .str t)]
  match dfieldsOpt with
  | some dfields => dfields.foldl (fun r f => dictSet r f .null) base
  | none => base

/-- The sequential per-ticker fallback loop (base.py:1592-1605 and 1713-1743):
    `fetchFn` abstracts `get_stock_fundamentals` (`none` = it returned no
    data or raised). -/
def fallbackLoop (tickers : List String) (dfieldsOpt : Option (List String))
    (fetchFn : String → Option PyDict) : List PyDict :=
  tickers.map (fun t =>
    match fetchFn t with
    | some r => r
    | none => placeholderRec t dfieldsOpt)

/-- Outcome of the single bulk CSV request of
    `get_multiple_stocks_fundamentals`: the parsed data rows, or a raised
    transport/parse error. -/
inductive BulkOutcome where
  | ok (rows : List CsvRow)
  | raised
deriving Repr

/-- Embeds `get_multiple_stocks_fundamentals` (base.py:1553-1743): on a
    successful bulk fetch, one record per processed CSV row; on an empty
    payload or a raised error, the sequential per-ticker fallback. -/
def get_multiple_stocks_fundamentals (tickers : List String)
    (dfieldsOpt : Option (List String)) (bulk : BulkOutcome)
    (fetchFn : String → Option PyDict) : List PyDict :=
  match bulk with
  | .raised => fallbackLoop tickers dfieldsOpt fetchFn
  | .ok rows =>
    if rows.isEmpty then fallbackLoop tickers dfieldsOpt fetchFn
    else (rows.enum).filterMap (fun iv => processRow tickers dfieldsOpt iv.fst iv.snd)


/-! ### Concrete FilterSpecs used by the claims -/

/-- The volume-surge screener FilterSpec family (screener.py:168-190), with
    the three threshold values left as parameters. -/
def volumeSurgeFS (av pm rv : PyScalar) : FilterSpec :=
  { market_cap := some "smallover", avg_volume_min := some av, price_min := some pm,
    relative_volume_min := some rv, price_change_min := some (.qv 2),
    sma200_above := some true, stocks_only := some true }

/-- A FilterSpec holding only an earnings-date keyword list. -/
def edListFS (ks : List String) : FilterSpec := { earnings_date := some (.list ks) }

/-! ### Claim C1 — volume-surge recipe output -/

/-- C1 counterexample: for the claimed FilterSpec `{market_cap: "smallover",
    avg_volume_min: 100000, price_min: 10.0, relative_volume_min: 1.5,
    price_change_min: 2.0, sma200_above: true, stocks_only: true}` the
    compiler does NOT return the claimed filter string (the common tail
    re-appends `ta_change_u2` without a separating comma) and does NOT
    return sort `-change` (no `sort_by` key is present, so the default
    `-ticker` stands). -/
theorem c1_counterexample :
    (convert_filters_to_finviz (volumeSurgeFS (.qv 100000) (.qv 10) (.qv (3 / 2)))).f ≠
      some "cap_smallover,ind_stocksonly,sh_avgvol_o100,sh_price_o10,sh_relvol_o1.5,ta_change_u2,ta_sma200_pa" ∧
    (convert_filters_to_finviz (volumeSurgeFS (.qv 100000) (.qv 10) (.qv (3 / 2)))).o ≠
      "-change" :=
  of_decide_eq_true (by with_unfolding_all rfl)

/-- C1 (amended): for that FilterSpec the compiler returns the seven recipe
    tokens followed by a duplicated `ta_change_u2` glued on without a comma
    (the fixed-order branch joins without a trailing comma, and the common
    `price_change_min` handler then appends directly), with the default sort
    `-ticker`; the claimed sort `-change` appears only when
    `sort_by="price_change"`, `sort_order="desc"` are also supplied, as
    `_build_volume_surge_filters` does. -/
theorem c1_amended :
    convert_filters_to_finviz (volumeSurgeFS (.qv 100000) (.qv 10) (.qv (3 / 2))) =
      { v := "151", o := "-ticker", c := colList151,
        f := some "cap_smallover,ind_stocksonly,sh_avgvol_o100,sh_price_o10,sh_relvol_o1.5,ta_change_u2,ta_sma200_pata_change_u2",
        ft := none, ar := none } ∧
    convert_filters_to_finviz
        { volumeSurgeFS (.qv 100000) (.qv 10) (.qv (3 / 2)) with
          sort_by := some "price_change", sort_order := some "desc" } =
      { v := "151", o := "-change", c := colList151,
        f := some "cap_smallover,ind_stocksonly,sh_avgvol_o100,sh_price_o10,sh_relvol_o1.5,ta_change_u2,ta_sma200_pata_change_u2",
        ft := none, ar := none } :=
  ⟨by with_unfolding_all rfl, by with_unfolding_all rfl⟩

/-! ### Claim C4 — cell normalizer -/

/-- C4 counterexample: the claimed pipeline ends with a trimmed-string
    fallback, but the code returns null on any unparsable residue: on input
    `"abc"` the spec-ordered pipeline yields the string `"abc"` while
    `_clean_numeric_value` yields `None`. -/
theorem c4_counterexample :
    clean_numeric_value_spec "abc" = some (Sum.inr "abc") ∧
    clean_numeric_value "abc" = none := by
  refine ⟨?_, ?_⟩ <;> with_unfolding_all rfl

/-- C4 (amended): `_clean_numeric_value` checks the sentinels (`""`, `"-"`,
    `"N/A"`) first; then a trailing `%` is stripped and the rest parsed as a
    number (before any currency or comma stripping, so `"$12%"` and
    `"1,234%"` give null); then a leading `$` is stripped; then commas are
    removed; then a `B`/`M`/`K` suffix multiplies by 1e9/1e6/1e3; otherwise
    the value parses as float when it contains a point and as int otherwise;
    every parse failure yields null — there is no string fallback.  The five
    spec examples hold. -/
theorem c4_amended :
    clean_numeric_value "$1,234.50" = some (2469 / 2) ∧
    clean_numeric_value "12.3%" = some (123 / 10) ∧
    clean_numeric_value "1.2B" = some 1200000000 ∧
    clean_numeric_value "-" = none ∧
    clean_numeric_value "N/A" = none ∧
    clean_numeric_value "$12%" = none ∧
    clean_numeric_value "1,234%" = none ∧
    clean_numeric_value "abc" = none := by
  refine ⟨?_, ?_, ?_, ?_, ?_, ?_, ?_, ?_⟩ <;> with_unfolding_all rfl

/-! ### Claim C5 — volume bucket ladder -/

/-- C5: the volume ladder encoder maps 0 and 49,999 to the same floor bucket
    `o0`, maps each of the nine non-zero thresholds exactly to its own
    bucket token, and returns one of the ten ladder tokens for every numeric
    input. -/
theorem c5_bucket_ladder :
    (convert_volume_to_finviz_format (.qv 0) = "o0" ∧
     convert_volume_to_finviz_format (.qv 49999) = "o0") ∧
    (convert_volume_to_finviz_format (.qv 2000000) = "o2000" ∧
     convert_volume_to_finviz_format (.qv 1000000) = "o1000" ∧
     convert_volume_to_finviz_format (.qv 750000) = "o750" ∧
     convert_volume_to_finviz_format (.qv 500000) = "o500" ∧
     convert_volume_to_finviz_format (.qv 400000) = "o400" ∧
     convert_volume_to_finviz_format (.qv 300000) = "o300" ∧
     convert_volume_to_finviz_format (.qv 200000) = "o200" ∧
     convert_volume_to_finviz_format (.qv 100000) = "o100" ∧
     convert_volume_to_finviz_format (.qv 50000) = "o50") ∧
    ∀ q : ℚ, convert_volume_to_finviz_format (.qv q) ∈
      (["o2000", "o1000", "o750", "o500", "o400", "o300", "o200", "o100", "o50", "o0"] :
        List String) := by
  refine ⟨⟨?_, ?_⟩,
          ⟨?_, ?_, ?_, ?_, ?_, ?_, ?_, ?_, ?_⟩, fun q => ?_⟩
  case _ => with_unfolding_all rfl
  case _ => with_unfolding_all rfl
  case _ => with_unfolding_all rfl
  case _ => with_unfolding_all rfl
  case _ => with_unfolding_all rfl
  case _ => with_unfolding_all rfl
  case _ => with_unfolding_all rfl
  case _ => with_unfolding_all rfl
  case _ => with_unfolding_all rfl
  case _ => with_unfolding_all rfl
  case _ => with_unfolding_all rfl
  simp only [convert_volume_to_finviz_format, volumeLadder]
  repeat' split
  all_goals simp

/-! ### Claim C8 — preset pass-through -/

/-- C8 counterexample: `_safe_numeric_conversion` does not pass an
    already-encoded preset through: on `"o10"` it strips the prefix and
    returns `"10"`. -/
theorem c8_counterexample :
    safe_numeric_conversion (.sv "o10") ≠ "o10" ∧
    safe_numeric_conversion (.sv "o10") = "10" :=
  of_decide_eq_true (by with_unfolding_all rfl)

/-- C8 (amended): `_safe_price_conversion` passes a preset string (leading
    `o`/`u`, remainder digits once dots are removed) through unchanged, but
    `_safe_numeric_conversion` instead strips a leading `o`/`u`/`e` and
    returns the remainder. -/
theorem c8_amended :
    (∀ (c : Char) (rest : List Char), (c = 'o' ∨ c = 'u') →
        pyIsDigit (String.mk (rest.filter (fun ch => ch ≠ '.'))) = true →
        safe_price_conversion (.sv (String.mk (c :: rest))) = String.mk (c :: rest)) ∧
    (∀ (c : Char) (rest : List Char), (c = 'o' ∨ c = 'u' ∨ c = 'e') →
        safe_numeric_conversion (.sv (String.mk (c :: rest))) = String.mk rest) := by
  constructor
  · intro c rest hc hd
    simp only [ne_eq, decide_not] at hd
    rcases hc with rfl | rfl <;>
      simp [safe_price_conversion, startsWithAny, hd]
  · intro c rest hc
    rcases hc with rfl | rfl | rfl <;>
      simp [safe_numeric_conversion, startsWithAny]

/-- C8 witness: the pass-through and the strip at the concrete preset
    `"o10"`. -/
theorem c8_amended_witness :
    safe_price_conversion (.sv (String.mk ('o' :: ['1', '0']))) = String.mk ('o' :: ['1', '0']) ∧
    safe_numeric_conversion (.sv (String.mk ('o' :: ['1', '0']))) = String.mk ['1', '0'] :=
  ⟨c8_amended.1 'o' ['1', '0'] (Or.inl rfl) (by with_unfolding_all rfl),
   c8_amended.2 'o' ['1', '0'] (Or.inl rfl)⟩

/-! ### Claim C9 — recipe tokens are constants -/

/-- C9: whenever the volume-surge recipe fires, the compiled parameters do
    not depend on the values supplied for `avg_volume_min`, `price_min` or
    `relative_volume_min`: any values compile identically to the canonical
    100000/10.0/1.5, and the filter string carries the literal tokens
    `sh_avgvol_o100`, `sh_price_o10`, `sh_relvol_o1.5` (so
    `relative_volume_min=3.0` still compiles to `sh_relvol_o1.5`). -/
theorem c9_recipe_constants (av pm rv : PyScalar) :
    convert_filters_to_finviz (volumeSurgeFS av pm rv) =
      convert_filters_to_finviz (volumeSurgeFS (.qv 100000) (.qv 10) (.qv (3 / 2))) ∧
    (convert_filters_to_finviz (volumeSurgeFS av pm rv)).f =
      some "cap_smallover,ind_stocksonly,sh_avgvol_o100,sh_price_o10,sh_relvol_o1.5,ta_change_u2,ta_sma200_pata_change_u2" :=
  ⟨by with_unfolding_all rfl, by with_unfolding_all rfl⟩

/-! ### Claim C10 — determinism -/

/-- C10: the compiler is a pure function of its filters argument — the
    embedding reads nothing but the FilterSpec (the Python original touches
    no mutable state, randomness, or ambient configuration inside
    `_convert_filters_to_finviz`; the auth token is injected later by
    `_fetch_csv_data`) — so equal inputs compile to equal QueryParameters. -/
theorem c10_determinism (fs1 fs2 : FilterSpec) (h : fs1 = fs2) :
    convert_filters_to_finviz fs1 = convert_filters_to_finviz fs2 := by rw [h]

/-- C10 witness: two runs on the same concrete FilterSpec agree. -/
theorem c10_determinism_witness :
    convert_filters_to_finviz (volumeSurgeFS (.qv 100000) (.qv 10) (.qv (3 / 2))) =
      convert_filters_to_finviz (volumeSurgeFS (.qv 100000) (.qv 10) (.qv (3 / 2))) :=
  c10_determinism _ _ rfl


/-! ### Claim C2 — missing auth token -/

/-- C2 counterexample: with no constructor key and no environment key, the
    missing-token `ValueError` raised inside `_fetch_csv_data` is caught by
    that same function's blanket `except`, which returns an empty DataFrame;
    `screen_stocks` then returns `[]`.  The error is converted into a result
    rather than propagating — even when the transport would have succeeded. -/
theorem c2_counterexample :
    fetch_csv_data_body none none {} (fun _ => .ok "Ticker,Price\nAAPL,1") =
      .error (.valueError "Finviz API key is required") ∧
    fetch_csv_data none none {} (fun _ => .ok "Ticker,Price\nAAPL,1") = ({} : DataFrame) ∧
    screen_stocks none none {} (fun _ => .ok "Ticker,Price\nAAPL,1") = [] :=
  ⟨rfl, rfl, rfl⟩

/-- C2 (amended): for every screening invocation with no auth token from
    either source, the compile-time check does raise `ValueError
    ("Finviz API key is required")` inside `_fetch_csv_data` — but the
    function-wide handler swallows it into an empty DataFrame and
    `screen_stocks` returns an empty list, for every FilterSpec and every
    transport behavior; an empty-string environment value behaves the same. -/
theorem c2_amended (fs : FilterSpec) (net : RequestParams → Except PyErr String) :
    resolve_api_key none none = none ∧
    fetch_csv_data_body none none fs net = .error (.valueError "Finviz API key is required") ∧
    fetch_csv_data none none fs net = ({} : DataFrame) ∧
    screen_stocks none none fs net = [] ∧
    fetch_csv_data_body none (some "") fs net = .error (.valueError "Finviz API key is required") :=
  ⟨rfl, rfl, rfl, rfl, rfl⟩

/-! ### Claim C3 — bulk fetch invariant -/

/-- Python dict lookup is unchanged by assigning a different key. -/
theorem lookup_dictSet_ne (r : PyDict) (k k2 : String) (v : FieldVal) (h : k ≠ k2) :
    (dictSet r k2 v).lookup k = r.lookup k := by
  induction r with
  | nil => simp [dictSet, List.lookup, beq_eq_false_iff_ne.mpr h]
  | cons hd tl ih =>
    obtain ⟨k0, v0⟩ := hd
    by_cases hk : k0 = k2
    · subst hk
      simp [dictSet, List.lookup, beq_eq_false_iff_ne.mpr h]
    · simp only [dictSet, if_neg hk, List.lookup]
      by_cases hkk : k = k0
      · subst hkk; simp
      · simp [beq_eq_false_iff_ne.mpr hkk, ih]

/-- Folding null-assignments over other keys leaves a lookup unchanged. -/
theorem foldl_dictSet_lookup (fields : List String) (r : PyDict) (k : String)
    (hk : k ∉ fields) :
    (fields.foldl (fun r f => dictSet r f .null) r).lookup k = r.lookup k := by
  induction fields generalizing r with
  | nil => rfl
  | cons f fsl ih =>
    simp only [List.foldl_cons]
    rw [ih _ (fun hmem => hk (List.mem_cons_of_mem f hmem)),
        lookup_dictSet_ne _ _ _ _ (fun hkf => hk (by rw [hkf]; exact List.mem_cons_self f fsl))]

/-- A failed ticker's placeholder record carries that ticker. -/
theorem placeholder_lookup (t : String) (dfieldsOpt : Option (List String))
    (hd : "ticker" ∉ dfieldsOpt.getD []) :
    (placeholderRec t dfieldsOpt).lookup "ticker" = some (.str t) := by
  cases dfieldsOpt with
  | none => rfl
  | some dfields =>
    simp only [Option.getD] at hd
    simp [placeholderRec, foldl_dictSet_lookup dfields _ _ hd, List.lookup]

/-- C3 counterexample: on the bulk-success path the output is one record per
    CSV row, not one per requested ticker: two requested tickers with a
    one-row CSV payload yield one record, not two. -/
theorem c3_counterexample :
    (get_multiple_stocks_fundamentals ["AAPL", "MSFT"] none
        (.ok [[("Ticker", some "AAPL")]]) (fun _ => none)).length = 1 ∧
    (get_multiple_stocks_fundamentals ["AAPL", "MSFT"] none
        (.ok [[("Ticker", some "AAPL")]]) (fun _ => none)).length ≠
      (["AAPL", "MSFT"] : List String).length :=
  of_decide_eq_true (by with_unfolding_all rfl)

/-- C3 (amended): the exactly-N, in-request-order invariant holds on the two
    fallback paths (bulk request raised, or empty bulk payload): the output
    has one record per requested ticker in order, failed tickers appearing as
    ticker-carrying placeholder records — provided the individual-fetch
    results carry their ticker and `"ticker"` is not shadowed in the
    requested-field list.  On the bulk-success path the output instead has at
    most one record per CSV row. -/
theorem c3_amended (tickers : List String) (dfieldsOpt : Option (List String))
    (fetchFn : String → Option PyDict)
    (hf : ∀ t r, fetchFn t = some r → r.lookup "ticker" = some (.str t))
    (hd : "ticker" ∉ dfieldsOpt.getD []) :
    (get_multiple_stocks_fundamentals tickers dfieldsOpt .raised fetchFn).length =
      tickers.length ∧
    (get_multiple_stocks_fundamentals tickers dfieldsOpt (.ok []) fetchFn).length =
      tickers.length ∧
    (∀ i, i < tickers.length →
      ((get_multiple_stocks_fundamentals tickers dfieldsOpt .raised fetchFn).getD i
          []).lookup "ticker" = some (.str (tickers.getD i "")) ∧
      ((get_multiple_stocks_fundamentals tickers dfieldsOpt (.ok []) fetchFn).getD i
          []).lookup "ticker" = some (.str (tickers.getD i ""))) ∧
    (∀ rows, rows ≠ [] →
      (get_multiple_stocks_fundamentals tickers dfieldsOpt (.ok rows) fetchFn).length ≤
        rows.length) := by
  have hloop : ∀ t, ((match fetchFn t with
      | some r => r
      | none => placeholderRec t dfieldsOpt) : PyDict).lookup "ticker" = some (.str t) := by
    intro t
    cases hft : fetchFn t with
    | some r => exact hf t r hft
    | none => exact placeholder_lookup t dfieldsOpt hd
  have hget : ∀ i, i < tickers.length →
      ((fallbackLoop tickers dfieldsOpt fetchFn).getD i []).lookup "ticker" =
        some (.str (tickers.getD i "")) := by
    intro i hi
    have hne : tickers.get? i ≠ none := by
      rw [ne_eq, List.get?_eq_none]; omega
    obtain ⟨t, ht⟩ := Option.ne_none_iff_exists'.mp hne
    have h1 : (fallbackLoop tickers dfieldsOpt fetchFn).getD i [] =
        (match fetchFn t with
         | some r => r
         | none => placeholderRec t dfieldsOpt) := by
      rw [List.getD_eq_getD_get?, fallbackLoop, List.get?_map, ht]
      rfl
    have h2 : tickers.getD i "" = t := by
      rw [List.getD_eq_getD_get?, ht]; rfl
    rw [h1, h2]
    exact hloop t
  refine ⟨by simp [get_multiple_stocks_fundamentals, fallbackLoop],
          by simp [get_multiple_stocks_fundamentals, fallbackLoop],
          fun i hi => ⟨hget i hi, hget i hi⟩,
          fun rows hrows => ?_⟩
  obtain ⟨r0, rl, rfl⟩ := List.exists_cons_of_ne_nil hrows
  simp only [get_multiple_stocks_fundamentals, List.isEmpty_cons, if_neg]
  calc ((r0 :: rl).enum.filterMap fun iv =>
          processRow tickers dfieldsOpt iv.fst iv.snd).length
      ≤ (r0 :: rl).enum.length := List.length_filterMap_le _ _
    _ = (r0 :: rl).length := List.enum_length

/-- C3 witness: the fallback-path invariant at two concrete tickers with
    every individual fetch failing. -/
theorem c3_amended_witness :
    (∀ t r, (fun (_ : String) => (none : Option PyDict)) t = some r →
        r.lookup "ticker" = some (.str t)) ∧
    "ticker" ∉ (Option.getD (none : Option (List String)) []) ∧
    (get_multiple_stocks_fundamentals ["AAPL", "MSFT"] none .raised
        (fun _ => none)).length = (["AAPL", "MSFT"] : List String).length ∧
    ((get_multiple_stocks_fundamentals ["AAPL", "MSFT"] none .raised
        (fun _ => none)).getD 0 []).lookup "ticker" = some (.str "AAPL") := by
  have h1 : ∀ t r, (fun (_ : String) => (none : Option PyDict)) t = some r →
      r.lookup "ticker" = some (.str t) := by intro t r h; cases h
  have h2 : "ticker" ∉ (Option.getD (none : Option (List String)) []) := by simp
  have main := c3_amended ["AAPL", "MSFT"] none (fun _ => none) h1 h2
  refine ⟨h1, h2, main.1, ?_⟩
  have := (main.2.2.1 0 (by simp)).1
  simpa using this


/-! ### Claim C6 — earnings-date keyword list quirk -/


theorem intercalate_go_append (l : List String) :
    ∀ x y s : String, String.intercalate.go (x ++ y) s l = x ++ String.intercalate.go y s l := by
  induction l with
  | nil => intro x y s; rfl
  | cons b bl ih =>
    intro x y s
    show String.intercalate.go (x ++ y ++ s ++ b) s bl = x ++ String.intercalate.go (y ++ s ++ b) s bl
    rw [String.append_assoc, String.append_assoc, ← String.append_assoc y s b]
    exact ih x (y ++ s ++ b) s

theorem intercalate_cons₂ (s x y : String) (l : List String) :
    String.intercalate s (x :: y :: l) = x ++ s ++ String.intercalate s (y :: l) := by
  show String.intercalate.go x s (y :: l) = x ++ s ++ String.intercalate.go y s l
  show String.intercalate.go (x ++ s ++ y) s l = x ++ s ++ String.intercalate.go y s l
  exact intercalate_go_append l (x ++ s) y s

theorem lookup_table_mem {tbl : List (String × String)} {k v : String}
    (h : tbl.lookup k = some v) : v ∈ tbl.map Prod.snd := by
  induction tbl with
  | nil => simp [List.lookup] at h
  | cons p tl ih =>
    obtain ⟨k0, v0⟩ := p
    simp only [List.lookup] at h
    cases hk : (k == k0) with
    | true => rw [hk] at h; injection h with hv; simp [hv]
    | false => rw [hk] at h; exact List.mem_cons_of_mem _ (ih h)

theorem earningsValues_comma_free {k v : String} (h : earningsValues k = some v) :
    ',' ∉ v.data := by
  have hmem := lookup_table_mem h
  have hall : ∀ w ∈ earningsValuesTable.map Prod.snd, ',' ∉ w.data := by decide
  exact hall v hmem

theorem rstripCommas_append_comma (s : String) :
    rstripCommas (s ++ ",") = rstripCommas s := by
  simp [rstripCommas, String.data_append, List.dropWhile]

theorem rstripCommas_no_comma (s : String) (h : ',' ∉ s.data) : rstripCommas s = s := by
  unfold rstripCommas
  cases hrev : s.data.reverse with
  | nil =>
    have hnil : s.data = [] := by simpa using congrArg List.reverse hrev
    cases s with
    | mk d => simp at hnil; simp [hnil]
  | cons c rest =>
    have hcmem : c ∈ s.data := by
      have : c ∈ s.data.reverse := by rw [hrev]; exact List.mem_cons_self _ _
      simpa using this
    have hcne : (c == ',') = false :=
      beq_eq_false_iff_ne.mpr (fun he => h (he ▸ hcmem))
    have hrr : (c :: rest).reverse = s.data := by
      rw [← hrev]; simp
    simp [List.dropWhile, hcne, hrr]

theorem comma_not_in_intercalate (l : List String) (h : ∀ v ∈ l, ',' ∉ v.data) :
    ',' ∉ (String.intercalate "|" l).data := by
  induction l with
  | nil => simp [String.intercalate]
  | cons a tl ih =>
    cases tl with
    | nil =>
      show ',' ∉ (String.intercalate "|" [a]).data
      simpa [String.intercalate, String.intercalate.go] using h a (List.mem_cons_self _ _)
    | cons b bl =>
      rw [intercalate_cons₂]
      simp only [String.data_append, List.mem_append]
      rintro ((hc | hc) | hc)
      · exact h a (List.mem_cons_self _ _) hc
      · simp at hc
      · exact ih (fun v hv => h v (List.mem_cons_of_mem _ hv)) hc

/-- C6: for every nonempty earnings-date keyword list whose entries all
    resolve in the vocabulary, the compiler emits one token carrying the
    `earningsdate_` prefix only on the first resolved keyword, the rest
    OR-joined with `|` unprefixed — i.e. the token is `earningsdate_` followed
    by the `|`-intercalation of the resolved keywords. -/
theorem c6_earnings_list_quirk (ks : List String) (h1 : ks ≠ [])
    (h2 : ∀ k ∈ ks, (earningsValues k).isSome) :
    (convert_filters_to_finviz (edListFS ks)).f =
      some ("earningsdate_" ++ String.intercalate "|" (ks.filterMap earningsValues)) := by
  obtain ⟨k0, ktail, rfl⟩ := List.exists_cons_of_ne_nil h1
  obtain ⟨v0, hv0⟩ := Option.isSome_iff_exists.mp (h2 k0 (List.mem_cons_self _ _))
  simp [convert_filters_to_finviz, sortStep, legacyStep, commonTailStep, earningsDateStep,
    edListFS, isVolumeSurgeTrigger, isEarningsAfterhoursTrigger, isUptrendTrigger,
    edTruthy, List.filterMap_cons, hv0, rangeFilter, appendF, truthyBool]
  rcases hrest : List.filterMap earningsValues ktail with _ | ⟨w, ws⟩
  · have hnone : ∀ a ∈ ktail, earningsValues a = none := List.filterMap_eq_nil.mp hrest
    rw [if_neg (by rintro ⟨x, hx, hne⟩; exact hne (hnone x hx))]
    have hcf : ',' ∉ ("earningsdate_" ++ v0).data := by
      simp only [String.data_append, List.mem_append]
      rintro (hc | hc)
      · revert hc; decide
      · exact earningsValues_comma_free hv0 hc
    rw [rstripCommas_append_comma, rstripCommas_no_comma _ hcf]
    rfl
  · have hex : ∃ x ∈ ktail, ¬ earningsValues x = none := by
      by_contra hno
      push_neg at hno
      rw [List.filterMap_eq_nil.mpr hno] at hrest
      exact absurd hrest (by simp)
    rw [if_pos hex]
    have hcfall : ∀ v ∈ (w :: ws), ',' ∉ v.data := by
      intro v hv
      have hvm : v ∈ List.filterMap earningsValues ktail := hrest ▸ hv
      obtain ⟨a, _, ha⟩ := List.mem_filterMap.mp hvm
      exact earningsValues_comma_free ha
    have hIcf : ',' ∉ (String.intercalate "|" (w :: ws)).data :=
      comma_not_in_intercalate _ hcfall
    have hcf : ',' ∉ ("earningsdate_" ++ v0 ++ "|" ++ String.intercalate "|" (w :: ws)).data := by
      simp only [String.data_append, List.mem_append]
      rintro (((hc | hc) | hc) | hc)
      · revert hc; decide
      · exact earningsValues_comma_free hv0 hc
      · revert hc; decide
      · exact hIcf hc
    rw [rstripCommas_append_comma, rstripCommas_no_comma _ hcf, intercalate_cons₂]
    simp [String.append_assoc]


/-- C6 witness: the keyword list `["today_after", "tomorrow_before"]`
    satisfies the hypotheses and compiles to the token
    `earningsdate_todayafter|tomorrowbefore`. -/
theorem c6_earnings_list_quirk_witness :
    (["today_after", "tomorrow_before"] : List String) ≠ [] ∧
    (∀ k ∈ (["today_after", "tomorrow_before"] : List String), (earningsValues k).isSome) ∧
    (convert_filters_to_finviz (edListFS ["today_after", "tomorrow_before"])).f =
      some "earningsdate_todayafter|tomorrowbefore" := by
  refine ⟨by decide, by decide, ?_⟩
  rw [c6_earnings_list_quirk ["today_after", "tomorrow_before"] (by decide) (by decide)]
  rfl


/-! ### Claim C7 — price range encoding and numeric rendering -/

/-- Every digit produced by the digit expansion is below 10. -/
theorem natDigitsLE_lt_ten : ∀ fuel n d, d ∈ natDigitsLE fuel n → d < 10 := by
  intro fuel
  induction fuel with
  | zero => intro n d h; simp [natDigitsLE] at h
  | succ f ih =>
    intro n d h
    by_cases hn : n = 0
    · simp [natDigitsLE, hn] at h
    · simp only [natDigitsLE, if_neg hn, List.mem_cons] at h
      rcases h with rfl | h
      · exact Nat.mod_lt _ (by norm_num)
      · exact ih _ _ h

/-- A digit character is never `'.'`. -/
theorem digitChar10_ne_dot {d : Nat} (h : d < 10) : digitChar10 d ≠ '.' := by
  interval_cases d <;> decide

/-- A nonzero digit renders to a character other than `'0'`. -/
theorem digitChar10_ne_zero {d : Nat} (h : d < 10) (h0 : d ≠ 0) : digitChar10 d ≠ '0' := by
  interval_cases d
  · exact absurd rfl h0
  all_goals decide

/-- A rendered natural number contains no decimal point. -/
theorem dot_not_in_natStr (n : Nat) : '.' ∉ (natStr n).data := by
  unfold natStr
  split
  · decide
  · intro hmem
    simp only [List.mem_reverse, List.mem_map] at hmem
    obtain ⟨d, hd, heq⟩ := hmem
    exact digitChar10_ne_dot (natDigitsLE_lt_ten _ _ _ hd) heq

/-- A rendered integer contains no decimal point. -/
theorem dot_not_in_intStr (i : Int) : '.' ∉ (intStr i).data := by
  unfold intStr
  split
  · intro hmem
    rw [String.data_append] at hmem
    rcases List.mem_append.mp hmem with hc | hc
    · revert hc; decide
    · exact dot_not_in_natStr _ hc
  · exact dot_not_in_natStr _

/-- The head surviving a leading-zero strip is nonzero. -/
theorem dropWhile_head_ne {l : List Nat} {x : Nat} {xs : List Nat}
    (h : l.dropWhile (fun d => d == 0) = x :: xs) : x ≠ 0 := by
  induction l with
  | nil => simp [List.dropWhile] at h
  | cons a tl ih =>
    by_cases ha : a = 0
    · subst ha
      simp only [List.dropWhile, beq_self_eq_true] at h
      exact ih h
    · have hbeq : (a == (0 : Nat)) = false := beq_eq_false_iff_ne.mpr ha
      simp only [List.dropWhile, hbeq] at h
      injection h with h1 h2
      exact h1 ▸ ha

/-- A failed exponent search means no exponent in range divides. -/
theorem decExpSearch_none {d : Nat} : ∀ fuel start, decExpSearch d fuel start = none →
    ∀ j, start ≤ j → j < start + fuel → ¬ d ∣ 10 ^ j := by
  intro fuel
  induction fuel with
  | zero => intro start h j h1 h2; omega
  | succ f ih =>
    intro start h j h1 h2
    simp only [decExpSearch] at h
    split at h
    · exact absurd h (by simp)
    · rename_i hstart
      by_cases hj : j = start
      · exact hj ▸ hstart
      · exact ih (start + 1) h j (by omega) (by omega)

/-- A rendered fraction tail is nonempty and never ends in the zero digit
    (its digits are stripped of leading — i.e. rendered-trailing — zeros). -/
theorem render_tail (pre : String) (stripped : List Nat)
    (hlt : ∀ d ∈ stripped, d < 10)
    (hhd : ∀ x xs, stripped = x :: xs → x ≠ 0) :
    (pre ++ "." ++ String.mk ((stripped.map digitChar10).reverse)).data ≠ [] ∧
    (pre ++ "." ++ String.mk ((stripped.map digitChar10).reverse)).data.getLast? ≠ some '0' := by
  have hdata : (pre ++ "." ++ String.mk ((stripped.map digitChar10).reverse)).data =
      (pre.data ++ ['.']) ++ (stripped.map digitChar10).reverse := by
    rw [String.data_append, String.data_append]
  rw [hdata]
  cases stripped with
  | nil =>
    constructor
    · simp
    · rw [List.map_nil, List.reverse_nil, List.append_nil,
        List.getLast?_append_of_ne_nil _ (by simp : (['.'] : List Char) ≠ [])]
      decide
  | cons d0 ds =>
    constructor
    · simp
    · rw [List.getLast?_append_of_ne_nil _ (by simp : ((d0 :: ds).map digitChar10).reverse ≠ []),
        List.getLast?_reverse]
      have hne : digitChar10 d0 ≠ '0' :=
        digitChar10_ne_zero (hlt d0 (List.mem_cons_self _ _)) (hhd d0 ds rfl)
      simp [hne]

/-- A non-integral decimal rational renders to a nonempty string with no
    trailing zero. -/
theorem pyFloatStr_nonintegral (q : ℚ) (hq : q.den ∣ 10 ^ q.den) (hden : q.den ≠ 1) :
    (pyFloatStr q).data ≠ [] ∧ (pyFloatStr q).data.getLast? ≠ some '0' := by
  unfold pyFloatStr
  rw [if_neg hden]
  rcases hsearch : decExpSearch q.den (q.den + 1) 0 with _ | k
  · exact absurd hq (decExpSearch_none _ _ hsearch q.den (Nat.zero_le _) (by omega))
  dsimp only
  refine render_tail _ _ ?_ ?_
  · intro d hd
    have hmem := (List.dropWhile_sublist (l := natDigitsOf (q.num.natAbs * 10 ^ k / q.den % 10 ^ k) ++
      List.replicate (k - (natDigitsOf (q.num.natAbs * 10 ^ k / q.den % 10 ^ k)).length) 0)
      (p := fun d => d == 0)).subset hd
    rcases List.mem_append.mp hmem with hm | hm
    · exact natDigitsLE_lt_ten _ _ _ hm
    · rw [List.eq_of_mem_replicate hm]; norm_num
  · intro x xs h
    exact dropWhile_head_ne h

/-- C7: on the generic path, price min=10.5 with max=20.11 compiles to
    `sh_price_10.5to20.11`, min=5 alone to `sh_price_o5`, max=100 alone to
    `sh_price_u100`; and the numeric rendering writes integral values without
    a decimal point and non-integral decimal values with no synthesized
    trailing zeros. -/
theorem c7_price_range_encoding (q : ℚ) (hq : q.den ∣ 10 ^ q.den) :
    ((convert_filters_to_finviz
        { price_min := some (.qv (21 / 2)), price_max := some (.qv (2011 / 100)) }).f =
          some "sh_price_10.5to20.11" ∧
     (convert_filters_to_finviz { price_min := some (.qv 5) }).f = some "sh_price_o5" ∧
     (convert_filters_to_finviz { price_max := some (.qv 100) }).f = some "sh_price_u100") ∧
    (q.den = 1 → '.' ∉ (numRender q).data) ∧
    (q.den ≠ 1 → (numRender q).data ≠ [] ∧ (numRender q).data.getLast? ≠ some '0') := by
  refine ⟨⟨?_, ?_, ?_⟩, ?_, ?_⟩
  · with_unfolding_all rfl
  · with_unfolding_all rfl
  · with_unfolding_all rfl
  · intro hden
    rw [numRender, if_pos hden]
    exact dot_not_in_intStr _
  · intro hden
    rw [numRender, if_neg hden]
    exact pyFloatStr_nonintegral q hq hden

/-- C7 witness: the rendering clauses evaluated at the concrete price 10.5,
    and the min-only token at 5. -/
theorem c7_price_range_encoding_witness :
    (((21 : ℚ) / 2).den ∣ 10 ^ ((21 : ℚ) / 2).den) ∧
    (((21 : ℚ) / 2).den ≠ 1 → (numRender ((21 : ℚ) / 2)).data ≠ [] ∧
      (numRender ((21 : ℚ) / 2)).data.getLast? ≠ some '0') ∧
    (convert_filters_to_finviz { price_min := some (.qv 5) }).f = some "sh_price_o5" :=
  ⟨of_decide_eq_true (by with_unfolding_all rfl),
   (c7_price_range_encoding ((21 : ℚ) / 2)
     (of_decide_eq_true (by with_unfolding_all rfl))).2.2,
   (c7_price_range_encoding ((21 : ℚ) / 2)
     (of_decide_eq_true (by with_unfolding_all rfl))).1.2.1⟩

end Finviz
